import Mathlib

/-!
Verification of the skyport-agent tunnel client.

The definitions below are a shallow embedding of the Go sources:
  - internal/tunnel/protocol.go  (tunnel message protocol)
  - internal/tunnel/manager.go   (connection manager and retry loops)
  - internal/service/health_monitor.go (health monitor reconnect queue)

External effects are made explicit: transport writes become returned lists
of frames, origin calls and WebSocket dials become oracle arguments, and
Go maps become association lists.
-/

namespace Skyport

/-! ## Go string primitives

`startsL` models the prefix test used by Go's `strings.Replace`,
`goContains` models `strings.Contains`, and `replace1` models
`strings.Replace(s, old, new, 1)` (replace the first occurrence; our
patterns are always non-empty). All operate on `List Char`.
-/

def startsL : List Char → List Char → Bool
  | [], _ => true
  | _ :: _, [] => false
  | p :: ps, c :: cs => if p = c then startsL ps cs else false

def goContains (pat : List Char) : List Char → Bool
  | [] => startsL pat []
  | c :: t => if startsL pat (c :: t) then true else goContains pat t

def replace1 (pat rep : List Char) : List Char → List Char
  | [] => if startsL pat [] then rep ++ (List.drop pat.length []) else []
  | c :: t =>
    if startsL pat (c :: t) then rep ++ (List.drop pat.length (c :: t))
    else c :: replace1 pat rep t

/-- `strings.Contains s sub` on Lean strings. -/
def goContainsStr (s sub : String) : Bool := goContains sub.data s.data

/-- Bytes of a string (UTF-8 agrees with code points on the ASCII payloads
used by the agent; bodies are opaque to every claim). -/
def strBytes (s : String) : List Nat := s.data.map Char.toNat

/-! ## Tunnel protocol (internal/tunnel/protocol.go)

`TunnelMessage` mirrors the Go struct of the same name (protocol.go:19-29);
the Go field `Type` is called `ty` here. `Body` is a byte slice, modelled as
`List Nat`; `Headers` is `map[string]string`, modelled as an association
list. Int fields default to 0, strings to "", maps to empty, as in Go.
-/

structure TunnelMessage where
  ty : String
  id : String
  method : String := ""
  url : String := ""
  headers : List (String × String) := []
  body : List Nat := []
  status : Nat := 0
  error : String := ""
  timestamp : Int := 0
  deriving DecidableEq, Repr

/-- Outcome of the origin HTTP call in `handleHTTPRequest`
(protocol.go:96-118): `http.NewRequest` failure, `client.Do` failure,
`io.ReadAll` failure, or a response (status, headers, body). `resp.Header`
is `map[string][]string`, hence the `List String` values. -/
inductive OriginResult where
  | reqError (msg : String)
  | connError (msg : String)
  | readError (msg : String)
  | ok (status : Nat) (headers : List (String × List String)) (body : List Nat)
  deriving DecidableEq

def originFailed : OriginResult → Bool
  | .ok _ _ _ => false
  | _ => true

/-- `strings.Join(values, ", ")` applied to each multi-valued header
(protocol.go:121-124 and 166-171). -/
def joinHeaders (hs : List (String × List String)) : List (String × String) :=
  hs.map (fun p => (p.1, String.intercalate ", " p.2))

/-- `sendErrorResponse` (protocol.go:239-250): a 502 `http_response` whose
body and `error` field carry the error message. -/
def sendErrorResponse (requestID errMsg : String) (now : Int) : TunnelMessage :=
  { ty := "http_response"
    id := requestID
    status := 502
    headers := [("Content-Type", "text/plain")]
    body := strBytes errMsg
    error := errMsg
    timestamp := now }

/-- `handleHTTPRequest` (protocol.go:92-137). The origin call is an oracle
argument; the returned list is the sequence of frames written to the
transport via `sendMessage`. -/
def handleHTTPRequest (message : TunnelMessage) (origin : OriginResult)
    (now : Int) : List TunnelMessage :=
  match origin with
  | .reqError m => [sendErrorResponse message.id ("Failed to create request: " ++ m) now]
  | .connError m => [sendErrorResponse message.id ("Failed to connect to local service: " ++ m) now]
  | .readError m => [sendErrorResponse message.id ("Failed to read response: " ++ m) now]
  | .ok st hs b =>
    [{ ty := "http_response"
       id := message.id
       status := st
       headers := joinHeaders hs
       body := b
       timestamp := now }]

/-- Outcome of `websocket.DefaultDialer.Dial` against the local service
(protocol.go:150): failure with a message, or success carrying the
(possibly absent, Go `resp == nil`) upgrade response headers. -/
inductive WSDialResult where
  | fail (msg : String)
  | ok (resp : Option (List (String × List String)))
  deriving DecidableEq

/-- Response headers extracted in protocol.go:166-171: empty when the dial
returned a nil response, joined otherwise. -/
def joinRespHeaders (resp : Option (List (String × List String))) : List (String × String) :=
  match resp with
  | none => []
  | some hs => joinHeaders hs

/-- One `websocket_data` frame produced by the local-to-tunnel forwarding
loop (protocol.go:209-215); `message_type` is `strconv.Itoa(messageType)`. -/
def mkWsDataFrame (requestID : String) (messageType : Nat) (data : List Nat)
    (now : Int) : TunnelMessage :=
  { ty := "websocket_data"
    id := requestID
    body := data
    headers := [("message_type", toString messageType)]
    timestamp := now }

/-- `handleWebSocketForwarding` (protocol.go:195-227): every message read
from the local WebSocket (given here as a list of (messageType, data)
pairs, ending at the first read error) is forwarded as a `websocket_data`
frame with the request's id. -/
def handleWebSocketForwarding (requestID : String)
    (localMsgs : List (Nat × List Nat)) (now : Int) : List TunnelMessage :=
  localMsgs.map (fun p => mkWsDataFrame requestID p.1 p.2 now)

/-- `handleWebSocketUpgrade` (protocol.go:139-187). On dial failure a 502
`websocket_upgrade_response` with the error; on success a 101
`websocket_upgrade_response` with the joined local response headers,
followed by the forwarding stream. -/
def handleWebSocketUpgrade (message : TunnelMessage) (dialRes : WSDialResult)
    (localMsgs : List (Nat × List Nat)) (now : Int) : List TunnelMessage :=
  match dialRes with
  | .fail e =>
    [{ ty := "websocket_upgrade_response"
       id := message.id
       status := 502
       error := "Failed to connect to local WebSocket: " ++ e
       timestamp := now }]
  | .ok resp =>
    { ty := "websocket_upgrade_response"
      id := message.id
      status := 101
      headers := joinRespHeaders resp
      timestamp := now } :: handleWebSocketForwarding message.id localMsgs now

/-- `handleWebSocketData` (protocol.go:189-193). The Go body is only a
debug log plus `return nil`: it writes nothing to any local WebSocket
(first component: (messageType, data) writes to a paired local connection)
and sends no frame (second component). `AgentTunnelProtocol` keeps no
table from frame id to local connection, so no such write is possible. -/
def handleWebSocketData (_message : TunnelMessage) :
    List (Nat × List Nat) × List TunnelMessage :=
  ([], [])

/-! ## Tunnel manager (internal/tunnel/manager.go) -/

/-- `config.Tunnel` as used by the manager. -/
structure Tunnel where
  id : String
  name : String
  subdomain : String := ""
  localPort : Nat := 0
  authToken : String := ""
  deriving DecidableEq

/-- `TunnelConnection` (manager.go:23-30), restricted to the fields the
claims observe (the live socket, context and protocol handle are opaque). -/
structure TunnelConnection where
  tunnel : Tunnel
  status : String
  deriving DecidableEq

/-- `TunnelManager.activeTunnels`, the Go map `map[string]*TunnelConnection`,
as an association list. -/
structure TunnelManagerState where
  activeTunnels : List (String × TunnelConnection)
  deriving DecidableEq

def initialManagerState : TunnelManagerState := ⟨[]⟩

/-- Go map lookup `tm.activeTunnels[id]`. -/
def findConn : List (String × TunnelConnection) → String → Option TunnelConnection
  | [], _ => none
  | (k, v) :: t, id => if k = id then some v else findConn t id

/-- Go map `delete(tm.activeTunnels, id)`. -/
def deleteConn : List (String × TunnelConnection) → String → List (String × TunnelConnection)
  | [], _ => []
  | (k, v) :: t, id => if k = id then deleteConn t id else (k, v) :: deleteConn t id

/-- `IsConnected` (manager.go:278-284). -/
def isConnected (st : TunnelManagerState) (tunnelID : String) : Bool :=
  (findConn st.activeTunnels tunnelID).isSome

/-- The WebSocket endpoint derivation of `ConnectTunnel` (manager.go:52-54):
`strings.Replace(url, "http://", "ws://", 1)`, then
`strings.Replace(_, "https://", "wss://", 1)`, then `+ "/tunnel/connect"`. -/
def tunnelServerURL (serverURL : String) : String :=
  String.mk
    (replace1 ("https://".data) ("wss://".data)
        (replace1 ("http://".data) ("ws://".data) serverURL.data)
      ++ ("/tunnel/connect").data)

/-- The three upgrade-request headers added in manager.go:57-60. -/
def connectHeaders (token tunnelID authToken : String) : List (String × String) :=
  [("Authorization", "Bearer " ++ token),
   ("X-Tunnel-ID", tunnelID),
   ("X-Tunnel-Auth", authToken)]

/-- `ConnectTunnel` (manager.go:39-127), executed under the write lock.
The WebSocket dial is an oracle argument. Returns the new state and the
call's result: the already-connected error (line 45), the wrapped dial
error (line 103), or success after inserting the connection (line 121). -/
def connectTunnel (st : TunnelManagerState) (tunnel : Tunnel)
    (dial : Except String Unit) : TunnelManagerState × Except String Unit :=
  match findConn st.activeTunnels tunnel.id with
  | some _ => (st, Except.error ("tunnel " ++ tunnel.name ++ " is already connected"))
  | none =>
    match dial with
    | Except.error e => (st, Except.error ("failed to connect to tunnel server: " ++ e))
    | Except.ok _ =>
      (⟨st.activeTunnels ++ [(tunnel.id, ⟨tunnel, "connected"⟩)]⟩, Except.ok ())

/-- `DisconnectTunnel` (manager.go:235-266). -/
def disconnectTunnel (st : TunnelManagerState) (tunnelID : String) :
    TunnelManagerState × Except String Unit :=
  match findConn st.activeTunnels tunnelID with
  | none => (st, Except.error "tunnel not connected")
  | some _ => (⟨deleteConn st.activeTunnels tunnelID⟩, Except.ok ())

/-- The deferred cleanup of `handleTunnelConnection` (manager.go:298-306),
which deletes the entry when the reader loop exits. -/
def handlerCleanup (st : TunnelManagerState) (tunnelID : String) : TunnelManagerState :=
  ⟨deleteConn st.activeTunnels tunnelID⟩

/-- The state-mutating operations on the manager's map; each runs under
the manager's write lock, so an execution is a sequence of these. -/
inductive ManagerOp where
  | connect (t : Tunnel) (dial : Except String Unit)
  | disconnect (id : String)
  | cleanup (id : String)

def applyOp (st : TunnelManagerState) (op : ManagerOp) : TunnelManagerState :=
  match op with
  | .connect t d => (connectTunnel st t d).1
  | .disconnect id => (disconnectTunnel st id).1
  | .cleanup id => handlerCleanup st id

def keysOf (st : TunnelManagerState) : List String :=
  st.activeTunnels.map Prod.fst

/-- At most one session per tunnel id: the map's keys are pairwise
distinct. -/
def keysNodup (st : TunnelManagerState) : Prop := (keysOf st).Nodup

/-- The backoff delay in seconds computed at a given (1-based) attempt
value, shared verbatim by ConnectTunnelWithRetry (manager.go:160-165) and
monitorAndReconnect (manager.go:202-207): `multiplier := 1 << (attempt-1);
delay := 2s * multiplier; if delay > 60s { delay = 60s }`. -/
def backoffDelaySecs (attempt : Nat) : Nat :=
  let multiplier := 1 <<< (attempt - 1)
  let delay := 2 * multiplier
  if delay > 60 then 60 else delay

/-- `ConnectTunnelWithRetry` (manager.go:131-178), `maxRetries = 5`.
`dial` gives the result of the i-th `ConnectTunnel` call (0-based).
Returns the delays slept so far paired with `some (dials, result)` on
return, or `none` when `fuel` runs out while the loop is still running
(the persistent loop never returns while dials keep failing). -/
def connectTunnelWithRetryAux (dial : Nat → Except String Unit)
    (autoReconnect : Bool) :
    Nat → Nat → Nat → List Nat → List Nat × Option (Nat × Except String Unit)
  | 0, _, _, sleeps => (sleeps, none)
  | fuel + 1, i, attempt, sleeps =>
    match dial i with
    | Except.ok _ => (sleeps, some (i + 1, Except.ok ()))
    | Except.error e =>
      if goContainsStr e "already connected" then
        (sleeps, some (i + 1, Except.error e))
      else
        let attempt1 := attempt + 1
        if 5 ≤ attempt1 ∧ autoReconnect = false then
          (sleeps, some (i + 1,
            Except.error ("failed to connect tunnel after 5 attempts: " ++ e)))
        else
          let delay := backoffDelaySecs attempt1
          let attempt2 := if autoReconnect = true ∧ 5 ≤ attempt1 then 4 else attempt1
          connectTunnelWithRetryAux dial autoReconnect fuel (i + 1) attempt2
            (sleeps ++ [delay])

def connectTunnelWithRetry (dial : Nat → Except String Unit)
    (autoReconnect : Bool) (fuel : Nat) :
    List Nat × Option (Nat × Except String Unit) :=
  connectTunnelWithRetryAux dial autoReconnect fuel 0 0 []

inductive ReconnectOutcome where
  | reconnected
  | alreadyConnected
  | gaveUp
  deriving DecidableEq

structure ReconnectResult where
  attempts : Nat
  sleeps : List Nat
  outcome : ReconnectOutcome
  deriving DecidableEq

/-- The inner reconnection loop of `monitorAndReconnect`
(manager.go:199-230): `for attempt < maxReconnectAttempts(10)`, with
`rem = 10 - attempt` as structural fuel. The delay is computed after the
increment and slept only when the dial fails with an error that does not
contain "already connected"; the loop gives up after 10 failures. -/
def reconnectLoopAux (dial : Nat → Except String Unit) :
    Nat → Nat → List Nat → ReconnectResult
  | 0, attempt, sleeps => ⟨attempt, sleeps, .gaveUp⟩
  | rem + 1, attempt, sleeps =>
    let a := attempt + 1
    let delay := backoffDelaySecs a
    match dial attempt with
    | Except.ok _ => ⟨a, sleeps, .reconnected⟩
    | Except.error e =>
      if goContainsStr e "already connected" then ⟨a, sleeps, .alreadyConnected⟩
      else reconnectLoopAux dial rem a (sleeps ++ [delay])

def reconnectLoop (dial : Nat → Except String Unit) : ReconnectResult :=
  reconnectLoopAux dial 10 0 []

/-! ## Health monitor (internal/service/health_monitor.go) -/

/-- `maxRetries` set in `NewHealthMonitor` (health_monitor.go:38). -/
def hmMaxRetries : Nat := 5

/-- The observable actions of one `processReconnectQueue` pass. The code
of that function never calls `DisconnectTunnel`, so `teardown` is never
produced; it is included so its absence is expressible. -/
inductive HMAction where
  | removeFromQueue (id : String)
  | connectAttempt (id : String)
  | teardown (id : String)
  deriving DecidableEq

def isTeardown : HMAction → Bool
  | .teardown _ => true
  | _ => false

/-- `scheduleReconnect` (health_monitor.go:168-171):
`hm.reconnectQueue[tunnelID]++` (a missing key reads as 0). -/
def scheduleReconnect : List (String × Nat) → String → List (String × Nat)
  | [], id => [(id, 1)]
  | (k, c) :: t, id =>
    if k = id then (k, c + 1) :: t else (k, c) :: scheduleReconnect t id

/-- `processReconnectQueue` (health_monitor.go:174-195). For each queued
(tunnelID, retryCount): when `retryCount > maxRetries` the entry is
deleted ("Max retries reached ... removing from queue"); otherwise
`manager.ConnectTunnel(tunnelID, false)` is attempted (oracle `connect`),
incrementing the count on failure and deleting the entry on success.
Returns the new queue and the actions performed. -/
def processReconnectQueue (connect : String → Except String Unit) :
    List (String × Nat) → List (String × Nat) × List HMAction
  | [] => ([], [])
  | (id, c) :: rest =>
    let r := processReconnectQueue connect rest
    if c > hmMaxRetries then
      (r.1, HMAction.removeFromQueue id :: r.2)
    else
      match connect id with
      | Except.error _ => ((id, c + 1) :: r.1, HMAction.connectAttempt id :: r.2)
      | Except.ok _ => (r.1, HMAction.connectAttempt id :: r.2)

/-! ## Concrete instances used by witnesses and counterexamples -/

/-- A sample inbound `http_request` frame. -/
def exMsg : TunnelMessage :=
  { ty := "http_request", id := "r1", method := "GET", url := "/hello", timestamp := 100 }

/-- A sample `websocket_data` frame with an established pairing id. -/
def wsDataEx : TunnelMessage :=
  { ty := "websocket_data", id := "u1", headers := [("message_type", "1")],
    body := strBytes "a", timestamp := 100 }

/-- A sample inbound `websocket_upgrade` frame. -/
def wsUpEx : TunnelMessage :=
  { ty := "websocket_upgrade", id := "u1", url := "/ws", timestamp := 100 }

def exTunnel : Tunnel :=
  { id := "t1", name := "demo", subdomain := "demo", localPort := 8080, authToken := "s3cr3t" }

/-- A manager state in which `exTunnel` is connected. -/
def exState : TunnelManagerState :=
  ⟨[("t1", ⟨exTunnel, "connected"⟩)]⟩

/-- A dial oracle that always fails with a transport error. -/
def failDial : Nat → Except String Unit :=
  fun _ => Except.error "dial tcp 127.0.0.1:443: connect: connection refused"

/-- A dial oracle whose call hits the already-connected rejection. -/
def acDial : Nat → Except String Unit :=
  fun _ => Except.error "tunnel demo is already connected"

/-- Every dial fails with a non-"already connected" transport error. -/
def failsNotAC (dial : Nat → Except String Unit) (j : Nat) : Prop :=
  ∃ e, dial j = Except.error e ∧ goContainsStr e "already connected" = false

/-! ## String lemmas -/

theorem startsL_same_append (p s : List Char) : startsL p (p ++ s) = true := by
  induction p with
  | nil => rfl
  | cons c t ih => simp [startsL, ih]

theorem startsL_cons_ne (p c : Char) (ps cs : List Char) (h : p ≠ c) :
    startsL (p :: ps) (c :: cs) = false := by
  simp [startsL, h]

theorem goContains_cons (pat : List Char) (c : Char) (t : List Char) :
    goContains pat (c :: t) = (startsL pat (c :: t) || goContains pat t) := by
  cases h : startsL pat (c :: t) <;> simp [goContains, h]

theorem goContains_append_left (pat pre s : List Char)
    (h : goContains pat s = true) : goContains pat (pre ++ s) = true := by
  induction pre with
  | nil => simpa using h
  | cons c t ih => rw [List.cons_append, goContains_cons, ih]; simp

theorem goContains_cons_false (pat : List Char) (c : Char) (t : List Char)
    (h1 : startsL pat (c :: t) = false) (h2 : goContains pat t = false) :
    goContains pat (c :: t) = false := by
  rw [goContains_cons, h1, h2]; rfl

theorem replace1_of_startsL (pat rep s : List Char) (h : startsL pat s = true) :
    replace1 pat rep s = rep ++ s.drop pat.length := by
  cases s with
  | nil => simp [replace1, h]
  | cons c t => simp [replace1, h]

theorem replace1_of_no_occur (pat rep s : List Char)
    (h : goContains pat s = false) : replace1 pat rep s = s := by
  induction s with
  | nil =>
    have hs : startsL pat [] = false := by simpa [goContains] using h
    simp [replace1, hs]
  | cons c t ih =>
    rw [goContains_cons, Bool.or_eq_false_iff] at h
    simp [replace1, h.1, ih h.2]

theorem string_append_ne_empty (s t : String) (h : s ≠ "") : s ++ t ≠ "" := by
  intro heq
  apply h
  have hd : s.data ++ t.data = [] := by
    have := congrArg String.data heq
    rwa [String.data_append] at this
  have hsd : s.data = [] := (List.append_eq_nil.mp hd).1
  exact congrArg String.mk hsd

/-- No occurrence of "https://" in "ws://" ++ rest when rest has none:
no character of "ws://" equals the pattern head 'h'. -/
theorem no_https_in_ws (rest : List Char)
    (h : goContains ("https://".data) rest = false) :
    goContains ("https://".data) ("ws://".data ++ rest) = false := by
  have hpat : "https://".data = 'h' :: "ttps://".data := by decide
  have hws : "ws://".data ++ rest = 'w' :: 's' :: ':' :: '/' :: '/' :: rest := by
    rw [show "ws://".data = ['w', 's', ':', '/', '/'] from by decide]
    rfl
  rw [hws]
  refine goContains_cons_false _ _ _ ?_ ?_
  · rw [hpat]; exact startsL_cons_ne _ _ _ _ (by decide)
  refine goContains_cons_false _ _ _ ?_ ?_
  · rw [hpat]; exact startsL_cons_ne _ _ _ _ (by decide)
  refine goContains_cons_false _ _ _ ?_ ?_
  · rw [hpat]; exact startsL_cons_ne _ _ _ _ (by decide)
  refine goContains_cons_false _ _ _ ?_ ?_
  · rw [hpat]; exact startsL_cons_ne _ _ _ _ (by decide)
  refine goContains_cons_false _ _ _ ?_ h
  · rw [hpat]; exact startsL_cons_ne _ _ _ _ (by decide)

/-- "http://" never starts at the beginning of "https://" ++ xs
(the fifth characters ':' and 's' differ). -/
theorem startsL_http_at_https (xs : List Char) :
    startsL ("http://".data) ("https://".data ++ xs) = false := by
  rw [show "http://".data = ['h', 't', 't', 'p', ':', '/', '/'] from by decide,
    show "https://".data = ['h', 't', 't', 'p', 's', ':', '/', '/'] from by decide]
  show startsL _ ('h' :: 't' :: 't' :: 'p' :: 's' :: ':' :: '/' :: '/' :: xs) = false
  simp [startsL]

/-- No occurrence of "http://" in "https://" ++ rest when rest has none. -/
theorem no_http_in_https (rest : List Char)
    (h : goContains ("http://".data) rest = false) :
    goContains ("http://".data) ("https://".data ++ rest) = false := by
  have hpat : "http://".data = 'h' :: "ttp://".data := by decide
  have hfull : "https://".data ++ rest
      = 'h' :: 't' :: 't' :: 'p' :: 's' :: ':' :: '/' :: '/' :: rest := by
    rw [show "https://".data = ['h', 't', 't', 'p', 's', ':', '/', '/'] from by decide]
    rfl
  rw [hfull]
  refine goContains_cons_false _ _ _ ?_ ?_
  · have := startsL_http_at_https rest
    rw [hfull] at this
    exact this
  refine goContains_cons_false _ _ _ ?_ ?_
  · rw [hpat]; exact startsL_cons_ne _ _ _ _ (by decide)
  refine goContains_cons_false _ _ _ ?_ ?_
  · rw [hpat]; exact startsL_cons_ne _ _ _ _ (by decide)
  refine goContains_cons_false _ _ _ ?_ ?_
  · rw [hpat]; exact startsL_cons_ne _ _ _ _ (by decide)
  refine goContains_cons_false _ _ _ ?_ ?_
  · rw [hpat]; exact startsL_cons_ne _ _ _ _ (by decide)
  refine goContains_cons_false _ _ _ ?_ ?_
  · rw [hpat]; exact startsL_cons_ne _ _ _ _ (by decide)
  refine goContains_cons_false _ _ _ ?_ ?_
  · rw [hpat]; exact startsL_cons_ne _ _ _ _ (by decide)
  refine goContains_cons_false _ _ _ ?_ h
  · rw [hpat]; exact startsL_cons_ne _ _ _ _ (by decide)

/-! ## Manager map lemmas -/

theorem findConn_none_not_mem (l : List (String × TunnelConnection)) (id : String)
    (h : findConn l id = none) : id ∉ l.map Prod.fst := by
  induction l with
  | nil => simp
  | cons p t ih =>
    obtain ⟨k, v⟩ := p
    by_cases hk : k = id
    · simp [findConn, hk] at h
    · simp only [findConn, if_neg hk] at h
      simp only [List.map_cons, List.mem_cons]
      rintro (rfl | hm)
      · exact hk rfl
      · exact ih h hm

theorem deleteConn_sublist (l : List (String × TunnelConnection)) (id : String) :
    (deleteConn l id).Sublist l := by
  induction l with
  | nil => simp [deleteConn]
  | cons p t ih =>
    obtain ⟨k, v⟩ := p
    by_cases hk : k = id
    · simp only [deleteConn, if_pos hk]
      exact ih.cons _
    · simp only [deleteConn, if_neg hk]
      exact ih.cons₂ _

theorem applyOp_keysNodup (st : TunnelManagerState) (op : ManagerOp)
    (h : keysNodup st) : keysNodup (applyOp st op) := by
  cases op with
  | connect t d =>
    cases hf : findConn st.activeTunnels t.id with
    | some c => simpa [applyOp, connectTunnel, hf] using h
    | none =>
      cases d with
      | error e => simpa [applyOp, connectTunnel, hf] using h
      | ok u =>
        have hmem := findConn_none_not_mem _ _ hf
        simp only [applyOp, connectTunnel, hf]
        unfold keysNodup keysOf at h ⊢
        simp only [List.map_append, List.map_cons, List.map_nil]
        refine List.Nodup.append h (List.nodup_singleton _) ?_
        intro a ha hb
        simp only [List.mem_singleton] at hb
        subst hb
        exact hmem ha
  | disconnect id =>
    cases hf : findConn st.activeTunnels id with
    | none => simpa [applyOp, disconnectTunnel, hf] using h
    | some c =>
      simp only [applyOp, disconnectTunnel, hf]
      unfold keysNodup keysOf at h ⊢
      exact h.sublist ((deleteConn_sublist st.activeTunnels id).map Prod.fst)
  | cleanup id =>
    simp only [applyOp, handlerCleanup]
    unfold keysNodup keysOf at h ⊢
    exact h.sublist ((deleteConn_sublist st.activeTunnels id).map Prod.fst)

theorem foldl_applyOp_keysNodup (ops : List ManagerOp) :
    ∀ st : TunnelManagerState, keysNodup st →
      keysNodup (List.foldl applyOp st ops) := by
  induction ops with
  | nil => intro st h; simpa using h
  | cons op rest ih =>
    intro st h
    exact ih (applyOp st op) (applyOp_keysNodup st op h)

/-! ## Retry loop lemmas -/

theorem retryAux_dials_le (dial : Nat → Except String Unit) :
    ∀ fuel i a sleeps s d r, a ≤ 4 →
      connectTunnelWithRetryAux dial false fuel i a sleeps = (s, some (d, r)) →
      d ≤ i + (5 - a) := by
  intro fuel
  induction fuel with
  | zero =>
    intro i a sleeps s d r _ h
    simp [connectTunnelWithRetryAux] at h
  | succ f ih =>
    intro i a sleeps s d r ha h
    rw [connectTunnelWithRetryAux] at h
    cases hd : dial i with
    | ok u =>
      rw [hd] at h
      dsimp only at h
      simp only [Prod.mk.injEq, Option.some.injEq] at h
      obtain ⟨-, hdi, -⟩ := h
      omega
    | error e =>
      rw [hd] at h
      dsimp only at h
      by_cases hc : goContainsStr e "already connected" = true
      · simp only [hc, if_true] at h
        simp only [Prod.mk.injEq, Option.some.injEq] at h
        obtain ⟨-, hdi, -⟩ := h
        omega
      · rw [if_neg hc] at h
        by_cases h5 : 5 ≤ a + 1
        · rw [if_pos ⟨h5, rfl⟩] at h
          simp only [Prod.mk.injEq, Option.some.injEq] at h
          obtain ⟨-, hdi, -⟩ := h
          omega
        · rw [if_neg (by simp [h5])] at h
          simp only [show (false = true ∧ 5 ≤ a + 1) = False by simp, if_false] at h
          have := ih (i + 1) (a + 1) (sleeps ++ [backoffDelaySecs (a + 1)]) s d r
            (by omega) h
          omega

theorem retryAux_all_fail (dial : Nat → Except String Unit)
    (hf : ∀ j, failsNotAC dial j) :
    ∀ fuel a, a ≤ 4 → 5 - a ≤ fuel → ∀ i sleeps,
      ∃ s e, connectTunnelWithRetryAux dial false fuel i a sleeps
        = (s, some (i + (5 - a), Except.error e)) := by
  intro fuel
  induction fuel with
  | zero => intro a ha hfu; omega
  | succ f ih =>
    intro a ha hfu i sleeps
    obtain ⟨e, he, hc⟩ := hf i
    rw [connectTunnelWithRetryAux, he]
    dsimp only
    rw [if_neg (by simp [hc])]
    by_cases h5 : 5 ≤ a + 1
    · rw [if_pos ⟨h5, rfl⟩]
      refine ⟨sleeps, "failed to connect tunnel after 5 attempts: " ++ e, ?_⟩
      have h1 : 5 - a = 1 := by omega
      rw [h1]
    · rw [if_neg (by simp [h5])]
      simp only [show (false = true ∧ 5 ≤ a + 1) = False by simp, if_false]
      obtain ⟨s, e2, hrec⟩ :=
        ih (a + 1) (by omega) (by omega) (i + 1) (sleeps ++ [backoffDelaySecs (a + 1)])
      refine ⟨s, e2, ?_⟩
      rw [show i + (5 - a) = (i + 1) + (5 - (a + 1)) by omega]
      exact hrec

theorem reconnectAux_attempts_le (dial : Nat → Except String Unit) :
    ∀ rem attempt sleeps,
      (reconnectLoopAux dial rem attempt sleeps).attempts ≤ attempt + rem := by
  intro rem
  induction rem with
  | zero => intro attempt sleeps; simp [reconnectLoopAux]
  | succ r ih =>
    intro attempt sleeps
    rw [reconnectLoopAux]
    cases hd : dial attempt with
    | ok u => dsimp only; omega
    | error e =>
      dsimp only
      by_cases hc : goContainsStr e "already connected" = true
      · rw [if_pos hc]; dsimp only; omega
      · rw [if_neg hc]
        have := ih (attempt + 1) (sleeps ++ [backoffDelaySecs (attempt + 1)])
        omega

theorem reconnectAux_all_fail (dial : Nat → Except String Unit)
    (hf : ∀ j, j < 10 → failsNotAC dial j) :
    ∀ rem attempt sleeps, attempt + rem = 10 →
      ∃ s, reconnectLoopAux dial rem attempt sleeps = ⟨10, s, ReconnectOutcome.gaveUp⟩ := by
  intro rem
  induction rem with
  | zero =>
    intro attempt sleeps h10
    refine ⟨sleeps, ?_⟩
    rw [reconnectLoopAux]
    simp [show attempt = 10 by omega]
  | succ r ih =>
    intro attempt sleeps h10
    obtain ⟨e, he, hc⟩ := hf attempt (by omega)
    rw [reconnectLoopAux, he]
    dsimp only
    rw [if_neg (by simp [hc])]
    exact ih (attempt + 1) (sleeps ++ [backoffDelaySecs (attempt + 1)]) (by omega)

/-! ## Health monitor lemma -/

theorem processReconnectQueue_no_teardown (connect : String → Except String Unit) :
    ∀ queue a, a ∈ (processReconnectQueue connect queue).2 → isTeardown a = false := by
  intro queue
  induction queue with
  | nil => intro a ha; simp [processReconnectQueue] at ha
  | cons p rest ih =>
    obtain ⟨id, c⟩ := p
    intro a ha
    rw [processReconnectQueue] at ha
    by_cases h5 : c > hmMaxRetries
    · rw [if_pos h5] at ha
      simp only [List.mem_cons] at ha
      rcases ha with rfl | ha
      · rfl
      · exact ih a ha
    · rw [if_neg h5] at ha
      cases hco : connect id with
      | error e =>
        rw [hco] at ha
        simp only [List.mem_cons] at ha
        rcases ha with rfl | ha
        · rfl
        · exact ih a ha
      | ok u =>
        rw [hco] at ha
        simp only [List.mem_cons] at ha
        rcases ha with rfl | ha
        · rfl
        · exact ih a ha

/-! ## Claim theorems -/

/-- Claim C1: for every inbound `http_request` frame with id X handled by
`HandleTunnelMessage`, exactly one `http_response` frame with the same id X
is written back through the transport, whether the origin call succeeds or
fails; on any origin failure (request construction, connection, or
body-read error) that response has status 502 and a non-empty error
field. -/
theorem http_request_single_response_C1 (msg : TunnelMessage)
    (origin : OriginResult) (now : Int) :
    ∃ r, handleHTTPRequest msg origin now = [r] ∧
      r.ty = "http_response" ∧ r.id = msg.id ∧
      (originFailed origin = true → r.status = 502 ∧ r.error ≠ "") := by
  cases origin with
  | reqError m =>
    exact ⟨_, rfl, rfl, rfl, fun _ => ⟨rfl, string_append_ne_empty _ _ (by decide)⟩⟩
  | connError m =>
    exact ⟨_, rfl, rfl, rfl, fun _ => ⟨rfl, string_append_ne_empty _ _ (by decide)⟩⟩
  | readError m =>
    exact ⟨_, rfl, rfl, rfl, fun _ => ⟨rfl, string_append_ne_empty _ _ (by decide)⟩⟩
  | ok st hs b =>
    exact ⟨_, rfl, rfl, rfl, fun hco => by simp [originFailed] at hco⟩

/-- Witness for C1 at a concrete failed origin call: the implication's
hypothesis holds and yields the 502 response with a non-empty error. -/
theorem http_request_single_response_C1_witness :
    originFailed (OriginResult.connError "connection refused") = true ∧
    ∃ r, handleHTTPRequest exMsg (OriginResult.connError "connection refused") 0 = [r] ∧
      r.ty = "http_response" ∧ r.id = exMsg.id ∧ r.status = 502 ∧ r.error ≠ "" := by
  refine ⟨rfl, ?_⟩
  obtain ⟨r, h1, h2, h3, h4⟩ :=
    http_request_single_response_C1 exMsg (OriginResult.connError "connection refused") 0
  exact ⟨r, h1, h2, h3, (h4 rfl).1, (h4 rfl).2⟩

/-- Claim C2 (refuted; the code is a stub): handling a `websocket_data`
frame with an established pairing id writes nothing to the paired local
WebSocket — `handleWebSocketData` only logs and returns nil, and the
protocol keeps no id-to-local-connection table — contradicting the claimed
forwarding of the body with kind `headers.message_type`. Evaluated at the
failing input `wsDataEx` (id "u1", body "a", message_type "1"): no local
write and no outbound frame is produced. -/
theorem websocket_data_dropped_C2 :
    handleWebSocketData wsDataEx = ([], []) ∧
    ∀ m : TunnelMessage, handleWebSocketData m = ([], []) :=
  ⟨rfl, fun _ => rfl⟩

/-- Claim C3: `handleWebSocketUpgrade` with id X emits, on dial success, a
`websocket_upgrade_response` with id X, status 101 and the joined local
response headers before any forwarding frame; on dial failure a single
`websocket_upgrade_response` with id X, status 502 and a non-empty error
field. -/
theorem ws_upgrade_correlated_response_C3 (msg : TunnelMessage)
    (localMsgs : List (Nat × List Nat)) (now : Int) :
    (∀ e, ∃ r, handleWebSocketUpgrade msg (WSDialResult.fail e) localMsgs now = [r] ∧
        r.ty = "websocket_upgrade_response" ∧ r.id = msg.id ∧
        r.status = 502 ∧ r.error ≠ "") ∧
    (∀ resp, handleWebSocketUpgrade msg (WSDialResult.ok resp) localMsgs now =
        { ty := "websocket_upgrade_response", id := msg.id, status := 101,
          headers := joinRespHeaders resp, timestamp := now }
          :: handleWebSocketForwarding msg.id localMsgs now) := by
  constructor
  · intro e
    exact ⟨_, rfl, rfl, rfl, rfl, string_append_ne_empty _ _ (by decide)⟩
  · intro resp
    rfl

/-- Witness for C3 at a concrete failed dial. -/
theorem ws_upgrade_correlated_response_C3_witness :
    ∃ r, handleWebSocketUpgrade wsUpEx (WSDialResult.fail "connection refused") [] 0 = [r] ∧
      r.ty = "websocket_upgrade_response" ∧ r.id = wsUpEx.id ∧
      r.status = 502 ∧ r.error ≠ "" :=
  (ws_upgrade_correlated_response_C3 wsUpEx [] 0).1 "connection refused"

/-- Claim C4 (refuted for the initial-connect loop; the code contradicts
its own comment): with a dial that always fails, the reconnect loop's k-th
slept delay equals min(60 s, 2 s · 2^(k-1)) for k = 1..10, but the
initial-connect retry loop in auto-reconnect mode resets the attempt
counter to maxRetries-1 = 4 after the 5th failure (manager.go:174-176,
commented "continue trying with max delay", maxDelay = 60 s), so the 6th
and every later delay is 32 s where the formula requires 60 s. -/
theorem backoff_formula_divergence_C4 :
    (reconnectLoop failDial).sleeps = [2, 4, 8, 16, 32, 60, 60, 60, 60, 60] ∧
    (reconnectLoop failDial).sleeps
      = (List.range 10).map (fun k => min 60 (2 * 2 ^ k)) ∧
    (connectTunnelWithRetry failDial true 7).1 = [2, 4, 8, 16, 32, 32, 32] ∧
    (connectTunnelWithRetry failDial true 7).1.getD 5 0 = 32 ∧
    min 60 (2 * 2 ^ (6 - 1)) = 60 := by
  decide

/-- Claim C5: with auto-reconnect disabled `ConnectTunnelWithRetry` makes
at most 5 dial attempts, and returns an error after exactly 5 when every
dial fails; the reconnect loop of `monitorAndReconnect` makes at most 10
attempts, and gives up after exactly 10 when every dial fails. -/
theorem retry_attempt_limits_C5 :
    (∀ dial fuel s d r,
        connectTunnelWithRetry dial false fuel = (s, some (d, r)) → d ≤ 5) ∧
    (∀ dial fuel, 5 ≤ fuel → (∀ j, failsNotAC dial j) →
        ∃ s e, connectTunnelWithRetry dial false fuel = (s, some (5, Except.error e))) ∧
    (∀ dial, (reconnectLoop dial).attempts ≤ 10) ∧
    (∀ dial, (∀ j, j < 10 → failsNotAC dial j) →
        ∃ s, reconnectLoop dial = ⟨10, s, ReconnectOutcome.gaveUp⟩) := by
  refine ⟨?_, ?_, ?_, ?_⟩
  · intro dial fuel s d r h
    have := retryAux_dials_le dial fuel 0 0 [] s d r (by omega) h
    omega
  · intro dial fuel hfu hf
    obtain ⟨s, e, h⟩ := retryAux_all_fail dial hf fuel 0 (by omega) (by omega) 0 []
    exact ⟨s, e, by simpa [connectTunnelWithRetry] using h⟩
  · intro dial
    have := reconnectAux_attempts_le dial 10 0 []
    simpa [reconnectLoop] using this
  · intro dial hf
    exact reconnectAux_all_fail dial hf 10 0 [] (by omega)

/-- Witness for C5 with the always-failing dial oracle. -/
theorem retry_attempt_limits_C5_witness :
    (∀ j, failsNotAC failDial j) ∧
    (∃ s e, connectTunnelWithRetry failDial false 5 = (s, some (5, Except.error e))) ∧
    (∃ s, reconnectLoop failDial = ⟨10, s, ReconnectOutcome.gaveUp⟩) := by
  have hfail : ∀ j, failsNotAC failDial j := fun j => ⟨_, rfl, by decide⟩
  exact ⟨hfail, retry_attempt_limits_C5.2.1 failDial 5 (by omega) hfail,
    retry_attempt_limits_C5.2.2.2 failDial (fun j _ => hfail j)⟩

/-- Claim C6: the active-tunnel map holds at most one session per
tunnel_id after any sequence of manager operations, and `ConnectTunnel`
(run under the write lock) rejects a connect for a present tunnel_id
without changing the state. -/
theorem session_uniqueness_C6 :
    (∀ ops : List ManagerOp, keysNodup (List.foldl applyOp initialManagerState ops)) ∧
    (∀ st t d, isConnected st t.id = true →
        connectTunnel st t d
          = (st, Except.error ("tunnel " ++ t.name ++ " is already connected"))) := by
  constructor
  · intro ops
    exact foldl_applyOp_keysNodup ops initialManagerState
      (by simp [keysNodup, keysOf, initialManagerState])
  · intro st t d h
    unfold isConnected at h
    cases hf : findConn st.activeTunnels t.id with
    | none => rw [hf] at h; simp at h
    | some c => simp [connectTunnel, hf]

/-- Witness for C6: a duplicate connect against a state already holding
t1 is rejected and leaves the state unchanged. -/
theorem session_uniqueness_C6_witness :
    isConnected exState exTunnel.id = true ∧
    connectTunnel exState exTunnel (Except.ok ())
      = (exState, Except.error ("tunnel " ++ exTunnel.name ++ " is already connected")) :=
  ⟨by decide, session_uniqueness_C6.2 exState exTunnel (Except.ok ()) (by decide)⟩

/-- Claim C7: a duplicate connect returns an error whose text contains
"already connected", and both retry loops return immediately on such an
error: one dial, no backoff sleep, the error surfaced to the caller. -/
theorem already_connected_no_retry_C7 :
    (∀ st t d, isConnected st t.id = true →
        (connectTunnel st t d).2
            = Except.error ("tunnel " ++ t.name ++ " is already connected") ∧
        goContainsStr ("tunnel " ++ t.name ++ " is already connected")
            "already connected" = true) ∧
    (∀ dial ar fuel e, 0 < fuel → dial 0 = Except.error e →
        goContainsStr e "already connected" = true →
        connectTunnelWithRetry dial ar fuel = ([], some (1, Except.error e))) ∧
    (∀ dial e, dial 0 = Except.error e →
        goContainsStr e "already connected" = true →
        reconnectLoop dial = ⟨1, [], ReconnectOutcome.alreadyConnected⟩) := by
  refine ⟨?_, ?_, ?_⟩
  · intro st t d h
    unfold isConnected at h
    cases hf : findConn st.activeTunnels t.id with
    | none => rw [hf] at h; simp at h
    | some c =>
      refine ⟨by simp [connectTunnel, hf], ?_⟩
      unfold goContainsStr
      rw [String.data_append]
      exact goContains_append_left _ _ _ (by decide)
  · intro dial ar fuel e hfu hd hc
    cases fuel with
    | zero => omega
    | succ f =>
      rw [connectTunnelWithRetry, connectTunnelWithRetryAux, hd]
      dsimp only
      rw [if_pos hc]
  · intro dial e hd hc
    rw [reconnectLoop, reconnectLoopAux, hd]
    dsimp only
    rw [if_pos hc]

/-- Witness for C7: the already-connected error message short-circuits
both loops at a concrete oracle. -/
theorem already_connected_no_retry_C7_witness :
    acDial 0 = Except.error "tunnel demo is already connected" ∧
    goContainsStr "tunnel demo is already connected" "already connected" = true ∧
    connectTunnelWithRetry acDial false 1
      = ([], some (1, Except.error "tunnel demo is already connected")) ∧
    reconnectLoop acDial = ⟨1, [], ReconnectOutcome.alreadyConnected⟩ := by
  refine ⟨rfl, by decide, ?_, ?_⟩
  · exact already_connected_no_retry_C7.2.1 acDial false 1 _ (by omega) rfl (by decide)
  · exact already_connected_no_retry_C7.2.2 acDial _ rfl (by decide)

/-- Claim C8 counterexample: after 6 consecutive health-check failures for
tunnel t1 its queued retry count is 6 > maxRetries, and the next
`processReconnectQueue` pass removes t1 from the queue with no teardown
and no connect attempt — the session is abandoned in place, not torn down
and reconnected as claimed. -/
theorem health_monitor_abandons_C8_counterexample :
    List.foldl scheduleReconnect [] (List.replicate 6 "t1") = [("t1", 6)] ∧
    processReconnectQueue (fun _ => Except.error "tunnel is already connected")
        [("t1", 6)]
      = ([], [HMAction.removeFromQueue "t1"]) ∧
    ((processReconnectQueue (fun _ => Except.error "tunnel is already connected")
        [("t1", 6)]).2.any isTeardown) = false := by
  decide

/-- Claim C8 amended: the health monitor never tears a session down; once
a tunnel's queued retry count exceeds maxRetries (5) — i.e. after more
than 5 consecutive failures — `processReconnectQueue` removes the tunnel
from the reconnect queue and gives up on it, with no teardown and no
further connect attempt; below that threshold it only re-attempts
`ConnectTunnel` against the still-present session. -/
theorem health_monitor_gives_up_C8 :
    (∀ connect queue a,
        a ∈ (processReconnectQueue connect queue).2 → isTeardown a = false) ∧
    (∀ connect id c, hmMaxRetries < c →
        processReconnectQueue connect [(id, c)]
          = ([], [HMAction.removeFromQueue id])) := by
  constructor
  · exact processReconnectQueue_no_teardown
  · intro connect id c h5
    simp [processReconnectQueue, h5]

/-- Witness for C8 (amended) at a concrete over-threshold queue entry. -/
theorem health_monitor_gives_up_C8_witness :
    hmMaxRetries < 6 ∧
    processReconnectQueue (fun _ => Except.error "connect failed") [("t1", 6)]
      = ([], [HMAction.removeFromQueue "t1"]) :=
  ⟨by decide, health_monitor_gives_up_C8.2 _ "t1" 6 (by decide)⟩

/-- Claim C9 (amended): for a configured server URL starting with
"http://" and containing no other "https://" occurrence — respectively
starting with "https://" and containing no other "http://" occurrence —
`ConnectTunnel` dials the URL obtained by swapping the scheme for ws/wss
and appending "/tunnel/connect", and the upgrade request carries exactly
the headers Authorization: Bearer token, X-Tunnel-ID, X-Tunnel-Auth. The
restriction is forced by the code: manager.go:52-53 uses first-occurrence
`strings.Replace`, not a prefix swap. -/
theorem connect_url_and_headers_C9 (rest token tid auth : String) :
    (goContainsStr rest "https://" = false →
        tunnelServerURL ("http://" ++ rest) = "ws://" ++ rest ++ "/tunnel/connect") ∧
    (goContainsStr rest "http://" = false →
        tunnelServerURL ("https://" ++ rest) = "wss://" ++ rest ++ "/tunnel/connect") ∧
    connectHeaders token tid auth =
      [("Authorization", "Bearer " ++ token), ("X-Tunnel-ID", tid),
       ("X-Tunnel-Auth", auth)] := by
  refine ⟨?_, ?_, rfl⟩
  · intro h
    unfold goContainsStr at h
    unfold tunnelServerURL
    rw [String.data_append]
    rw [replace1_of_startsL _ _ _ (startsL_same_append _ _), List.drop_left]
    rw [replace1_of_no_occur _ _ _ (no_https_in_ws rest.data h)]
    exact congrArg String.mk rfl
  · intro h
    unfold goContainsStr at h
    unfold tunnelServerURL
    rw [String.data_append]
    rw [replace1_of_no_occur _ _ _ (no_http_in_https rest.data h)]
    rw [replace1_of_startsL _ _ _ (startsL_same_append _ _), List.drop_left]
    exact congrArg String.mk rfl

/-- Witness for C9 at concrete URLs and credentials. -/
theorem connect_url_and_headers_C9_witness :
    goContainsStr "skyport.example.com" "https://" = false ∧
    tunnelServerURL "http://skyport.example.com"
      = "ws://skyport.example.com/tunnel/connect" ∧
    goContainsStr "skyport.example.com" "http://" = false ∧
    tunnelServerURL "https://skyport.example.com"
      = "wss://skyport.example.com/tunnel/connect" := by
  refine ⟨by decide, ?_, by decide, ?_⟩
  · exact (connect_url_and_headers_C9 "skyport.example.com" "tok" "t1" "sec").1 (by decide)
  · exact (connect_url_and_headers_C9 "skyport.example.com" "tok" "t1" "sec").2.1 (by decide)

/-- Claim C9 counterexample: the derivation is not a scheme-prefix
replacement. For the server URL "http://a/?to=https://b" the code also
rewrites the embedded "https://" in the query (first-occurrence
`strings.Replace`), dialing "ws://a/?to=wss://b/tunnel/connect" instead of
the prefix-swapped "ws://a/?to=https://b/tunnel/connect". -/
theorem connect_url_embedded_scheme_C9_counterexample :
    tunnelServerURL "http://a/?to=https://b"
      = "ws://a/?to=wss://b/tunnel/connect" ∧
    tunnelServerURL "http://a/?to=https://b"
      ≠ "ws://" ++ "a/?to=https://b" ++ "/tunnel/connect" := by
  refine ⟨by decide, ?_⟩
  decide

/-- Claim C10: when the WebSocket dial fails, `ConnectTunnel` returns an
error and leaves the manager state unchanged — no map entry is added and
`IsConnected` remains false. -/
theorem connect_failure_atomic_C10 (st : TunnelManagerState) (t : Tunnel)
    (e : String) (h : isConnected st t.id = false) :
    connectTunnel st t (Except.error e)
      = (st, Except.error ("failed to connect to tunnel server: " ++ e)) ∧
    isConnected (connectTunnel st t (Except.error e)).1 t.id = false := by
  have hf : findConn st.activeTunnels t.id = none := by
    unfold isConnected at h
    cases hx : findConn st.activeTunnels t.id with
    | none => rfl
    | some c => rw [hx] at h; simp at h
  have h1 : connectTunnel st t (Except.error e)
      = (st, Except.error ("failed to connect to tunnel server: " ++ e)) := by
    simp [connectTunnel, hf]
  exact ⟨h1, by rw [h1]; exact h⟩

/-- Witness for C10: a failed dial against the empty manager state. -/
theorem connect_failure_atomic_C10_witness :
    isConnected initialManagerState exTunnel.id = false ∧
    connectTunnel initialManagerState exTunnel (Except.error "connection refused")
      = (initialManagerState,
         Except.error ("failed to connect to tunnel server: " ++ "connection refused")) :=
  ⟨by decide,
   (connect_failure_atomic_C10 initialManagerState exTunnel "connection refused"
      (by decide)).1⟩

end Skyport
